import Mathlib

/-!
# Verification of the go-openrouter streaming decoder and content codec

This file is a shallow embedding, in Lean 4, of the components of the
`reVrost/go-openrouter` client that carry algorithmic content:

* the polymorphic `Content` JSON codec (`chat.go`, `Content.MarshalJSON` /
  `Content.UnmarshalJSON`), modelled at the level of JSON values: Go's
  `encoding/json` byte serialisation is external library code, so encoding
  produces a `Json` value and decoding consumes an `Option Json`
  (`none` standing for input bytes that are not valid JSON, on which every
  `json.Unmarshal` call fails);
* the server-sent-event stream driver shared (verbatim, up to the chunk type
  and logger) by `CreateChatCompletionStream` (`chat.go`) and
  `CreateCompletionStream` (`completion.go`), together with the consumer-side
  `Recv` and `Close` operations;
* the early `request.Stream` guard of the non-streaming entry points
  `Client.CreateChatCompletion` and `Client.CreateCompletion`.

Go slices are Lean lists, Go strings are Lean strings (compared via their
character lists), Go `*T` pointers in data structs are `Option T`, and a
function that can return a Go `error` returns it in an explicit error
channel.
-/

namespace GoOpenRouter

/-! ## JSON values

`Json` is the value space of Go's `encoding/json`. Object member lists keep
insertion order, as `encoding/json` does when marshalling a struct (one member
per exported field, in field order). -/

inductive Json where
  | null
  | str (s : String)
  | num (n : Int)
  | bool (b : Bool)
  | arr (elems : List Json)
  | obj (fields : List (String × Json))

/-- Go `strings.HasPrefix`, on the character lists of the two strings. -/
def hasPrefix (s p : String) : Bool :=
  p.data.isPrefixOf s.data

/-- Go `strings.HasSuffix`, on the character lists of the two strings. -/
def hasSuffix (s suffix : String) : Bool :=
  suffix.data.isSuffixOf s.data

/-- Go `bytes.TrimPrefix`: drop the prefix when present, otherwise return the
input unchanged. -/
def trimPrefix (s p : String) : String :=
  if hasPrefix s p then ⟨s.data.drop p.data.length⟩ else s

/-! ## The part structs (`chat.go`)

Field names follow the Go structs; `Type` being a Lean keyword, that field is
written `Type'`. String-typed named types (`ChatMessagePartType`,
`ImageURLDetail`) are plain strings. -/

/-- `CacheControl` (`chat.go`): `Type string json:"type"`,
`TTL *string json:"ttl,omitempty"`. -/
structure CacheControl where
  Type' : String
  TTL : Option String
deriving DecidableEq, Repr

/-- `ChatMessageImageURL` (`chat.go`): `URL string json:"url,omitempty"`,
`Detail ImageURLDetail json:"detail,omitempty"`. -/
structure ChatMessageImageURL where
  URL : String
  Detail : String
deriving DecidableEq, Repr

/-- `FileContent` (`chat.go`): `Filename string json:"filename"`,
`FileData string json:"file_data"` (no omitempty). -/
structure FileContent where
  Filename : String
  FileData : String
deriving DecidableEq, Repr

/-- `ChatMessagePart` (`chat.go`): `Type ChatMessagePartType json:"type,omitempty"`,
`Text string json:"text,omitempty"`, `CacheControl *CacheControl
json:"cache_control,omitempty"`, `ImageURL *ChatMessageImageURL
json:"image_url,omitempty"`, `File *FileContent json:"file,omitempty"`. -/
structure ChatMessagePart where
  Type' : String
  Text : String
  CacheControl : Option CacheControl
  ImageURL : Option ChatMessageImageURL
  File : Option FileContent
deriving DecidableEq, Repr

/-- `Content` (`chat.go`): `Text string`, `Multi []ChatMessagePart`. -/
structure Content where
  Text : String
  Multi : List ChatMessagePart
deriving DecidableEq, Repr

/-! ## Marshalling (Go struct encoding at the JSON-value level)

`encoding/json` emits one object member per exported field, in declaration
order; a field tagged `omitempty` is dropped when it holds its zero value
(empty string, nil pointer). -/

/-- One object member for a string field tagged `omitempty`. -/
def omitemptyStr (key s : String) : List (String × Json) :=
  if s = "" then [] else [(key, .str s)]

/-- One object member for a pointer field tagged `omitempty`: omitted when the
pointer is nil, otherwise the encoding of the pointee. -/
def omitemptyPtr (key : String) : Option Json → List (String × Json)
  | none => []
  | some j => [(key, j)]

/-- Go encoding of `CacheControl`: `type` always present, `ttl` only when the
pointer is non-nil. -/
def CacheControl.toJson (c : CacheControl) : Json :=
  .obj ([("type", .str c.Type')] ++
    (match c.TTL with
     | none => []
     | some t => [("ttl", .str t)]))

/-- Go encoding of `ChatMessageImageURL`: both fields `omitempty`. -/
def ChatMessageImageURL.toJson (u : ChatMessageImageURL) : Json :=
  .obj (omitemptyStr "url" u.URL ++ omitemptyStr "detail" u.Detail)

/-- Go encoding of `FileContent`: both fields always present. -/
def FileContent.toJson (f : FileContent) : Json :=
  .obj [("filename", .str f.Filename), ("file_data", .str f.FileData)]

/-- Go encoding of `ChatMessagePart`: five fields in declaration order, all
`omitempty`. -/
def ChatMessagePart.toJson (p : ChatMessagePart) : Json :=
  .obj (omitemptyStr "type" p.Type' ++
        omitemptyStr "text" p.Text ++
        omitemptyPtr "cache_control" (p.CacheControl.map CacheControl.toJson) ++
        omitemptyPtr "image_url" (p.ImageURL.map ChatMessageImageURL.toJson) ++
        omitemptyPtr "file" (p.File.map FileContent.toJson))

/-! ## Unmarshalling (Go struct decoding at the JSON-value level)

`json.Unmarshal` into a struct: unknown members are ignored, an absent member
leaves the field at its zero value, a `null` member is a no-op, a member of the
wrong JSON kind is an error. Into a pointer field, `null` yields a nil pointer
and an object allocates and fills the pointee. When the same key occurs twice
Go keeps the last occurrence while this model keeps the first; marshalled
output never contains duplicate keys, so the difference is invisible to every
theorem below. -/

/-- Look a key up in an object's member list (first occurrence). -/
def getField (fields : List (String × Json)) (key : String) : Option Json :=
  (fields.find? (fun kv => kv.1 = key)).map (·.2)

/-- Decode a string-typed struct field: absent or `null` keeps the zero value
`""`; a JSON string decodes; any other kind is an error (`none`). -/
def decStrField (fields : List (String × Json)) (key : String) : Option String :=
  match getField fields key with
  | none => some ""
  | some .null => some ""
  | some (.str s) => some s
  | some _ => none

/-- Decode a `*string` struct field: absent or `null` is a nil pointer; a JSON
string allocates; any other kind is an error. -/
def decOptStrField (fields : List (String × Json)) (key : String) :
    Option (Option String) :=
  match getField fields key with
  | none => some none
  | some .null => some none
  | some (.str s) => some (some s)
  | some _ => none

/-- Decode a pointer-to-struct field with the given pointee decoder: absent or
`null` is a nil pointer; otherwise the pointee decoder runs and its error
propagates. -/
def decPtrField (dec : Json → Option β) (fields : List (String × Json))
    (key : String) : Option (Option β) :=
  match getField fields key with
  | none => some none
  | some .null => some none
  | some j => (dec j).map some

/-- Go decoding of `CacheControl` from a non-null JSON value. -/
def CacheControl.fromJson : Json → Option CacheControl
  | .obj fs =>
    match decStrField fs "type", decOptStrField fs "ttl" with
    | some t, some ttl => some ⟨t, ttl⟩
    | _, _ => none
  | _ => none

/-- Go decoding of `ChatMessageImageURL` from a non-null JSON value. -/
def ChatMessageImageURL.fromJson : Json → Option ChatMessageImageURL
  | .obj fs =>
    match decStrField fs "url", decStrField fs "detail" with
    | some u, some d => some ⟨u, d⟩
    | _, _ => none
  | _ => none

/-- Go decoding of `FileContent` from a non-null JSON value. -/
def FileContent.fromJson : Json → Option FileContent
  | .obj fs =>
    match decStrField fs "filename", decStrField fs "file_data" with
    | some n, some d => some ⟨n, d⟩
    | _, _ => none
  | _ => none

/-- Go decoding of `ChatMessagePart`: `null` is a no-op on the zero struct;
an object decodes field by field; any other kind is an error. -/
def ChatMessagePart.fromJson : Json → Option ChatMessagePart
  | .null => some ⟨"", "", none, none, none⟩
  | .obj fs =>
    match decStrField fs "type", decStrField fs "text",
          decPtrField CacheControl.fromJson fs "cache_control",
          decPtrField ChatMessageImageURL.fromJson fs "image_url",
          decPtrField FileContent.fromJson fs "file" with
    | some ty, some tx, some cc, some iu, some fl => some ⟨ty, tx, cc, iu, fl⟩
    | _, _, _, _, _ => none
  | _ => none

/-- Go decoding of a `[]ChatMessagePart` slice from a JSON array's elements:
elementwise, the first element error aborting the whole decode. -/
def unmarshalPartList : List Json → Option (List ChatMessagePart)
  | [] => some []
  | j :: js =>
    match ChatMessagePart.fromJson j, unmarshalPartList js with
    | some p, some ps => some (p :: ps)
    | _, _ => none

/-- `json.Unmarshal(data, &s)` where `s` is a fresh `string` variable
(`Content.UnmarshalJSON`, first attempt): invalid bytes (`none`) and non-string
non-null values are errors; `null` leaves the zero value `""`. -/
def stringUnmarshal : Option Json → Option String
  | some .null => some ""
  | some (.str s) => some s
  | _ => none

/-- `json.Unmarshal(data, &parts)` where `parts` is a fresh
`[]ChatMessagePart` variable (`Content.UnmarshalJSON`, second attempt):
`null` leaves the nil slice, an array decodes elementwise, anything else is an
error. -/
def partsUnmarshal : Option Json → Option (List ChatMessagePart)
  | some .null => some []
  | some (.arr es) => unmarshalPartList es
  | _ => none

/-! ## The `Content` codec (`chat.go`) -/

/-- `Content.MarshalJSON` (`chat.go`):

```go
if c.Text != "" && len(c.Multi) == 0 { return json.Marshal(c.Text) }
if len(c.Multi) > 0 && c.Text == "" { return json.Marshal(c.Multi) }
return json.Marshal(nil)
```

`json.Marshal` of a string and of a slice of these part structs cannot fail,
so the encoder is total. -/
def Content.marshalJSON (c : Content) : Json :=
  if c.Text ≠ "" ∧ c.Multi.length = 0 then .str c.Text
  else if c.Multi.length > 0 ∧ c.Text = "" then .arr (c.Multi.map ChatMessagePart.toJson)
  else .null

/-- The last two lines of `Content.UnmarshalJSON`, reached when both decode
attempts were rejected: `c.Text = ""; c.Multi = nil; return nil`. -/
def Content.unmarshalFallback (data : Option Json) : Content × Option Unit :=
  match partsUnmarshal data with
  | some parts =>
    if parts.length > 0 then (⟨"", parts⟩, none) else (⟨"", []⟩, none)
  | none => (⟨"", []⟩, none)

/-- `Content.UnmarshalJSON` (`chat.go`):

```go
var s string
if err := json.Unmarshal(data, &s); err == nil && s != "" {
    c.Text = s; c.Multi = nil; return nil
}
var parts []ChatMessagePart
if err := json.Unmarshal(data, &parts); err == nil && len(parts) > 0 {
    c.Text = ""; c.Multi = parts; return nil
}
c.Text = ""; c.Multi = nil; return nil
```

The second component is the returned Go error, `nil` on every path. -/
def Content.unmarshalJSON (data : Option Json) : Content × Option Unit :=
  match stringUnmarshal data with
  | some s =>
    if s ≠ "" then (⟨s, []⟩, none) else Content.unmarshalFallback data
  | none => Content.unmarshalFallback data

/-! ## The stream driver

`CreateChatCompletionStream` (`chat.go`) and `CreateCompletionStream`
(`completion.go`) spawn one goroutine over the response body; the loop bodies
are identical up to the chunk type, the `json.Unmarshal` target and the logger,
so the driver is embedded once, parameterized by the chunk decoder
`dec : String → Option α` (standing for `json.Unmarshal` of the trimmed line
into the chunk struct: `some` on success, `none` on a decode error).

The body is the sequence of lines `bufio.Reader.ReadBytes('\n')` yields — each
line includes its trailing newline — followed by how the read after the last
full line fails: `io.EOF` or another read error. (On `io.EOF`, `ReadBytes` may
also hand back unterminated trailing bytes; the goroutine checks `err != nil`
first and discards them, so they never reach the classifier and are not
modelled.)

The model covers runs in which neither the consumer's `done` channel nor the
request context fires, which is every scenario below except `Close`
(modelled separately): the `select` then always takes its `default` branch. -/

/-- The reserved suffix the terminator check looks for:
`strings.HasSuffix(string(line), "[DONE]\n")`. -/
def doneSuffix : String := "[DONE]\n"

/-- The comment prefix the skip check looks for:
`strings.HasPrefix(string(line), ": OPENROUTER PROCESSING")`. -/
def commentPrefix : String := ": OPENROUTER PROCESSING"

/-- The blank line the skip check compares against: `string(line) == "\n"`. -/
def emptyLine : String := "\n"

/-- The prefix stripped before decoding:
`line = bytes.TrimPrefix(line, []byte("data:"))`. -/
def dataPrefix : String := "data:"

/-- How the read after the last complete line of the body fails. -/
inductive BodyEnd where
  | eof       -- `err == io.EOF`
  | readErr   -- any other read error
deriving DecidableEq, Repr

/-- A response body, as the line reader presents it to the driver loop. -/
structure Body where
  lines : List String
  ending : BodyEnd
deriving Repr

/-- What one iteration of the driver loop does with a line, in the source's
test order: terminator suffix first, then comment/blank skip, then
`TrimPrefix`-and-decode. -/
inductive FrameClass (α : Type) where
  | terminator
  | skip
  | chunk (c : α)
  | malformed
deriving DecidableEq, Repr

/-- Classification of one line (`chat.go` 611–631 / `completion.go` 182–202):

```go
if strings.HasSuffix(string(line), "[DONE]\n") { return }
if strings.HasPrefix(string(line), ": OPENROUTER PROCESSING") || string(line) == "\n" { continue }
line = bytes.TrimPrefix(line, []byte("data:"))
var chunk T
if err := json.Unmarshal(line, &chunk); err != nil { log...; return }
stream <- chunk
``` -/
def classify (dec : String → Option α) (line : String) : FrameClass α :=
  if hasSuffix line doneSuffix then .terminator
  else if hasPrefix line commentPrefix || line = emptyLine then .skip
  else
    match dec (trimPrefix line dataPrefix) with
    | some c => .chunk c
    | none => .malformed

/-- Why the driver goroutine returned. -/
inductive ExitCause where
  | terminator   -- a `[DONE]` line
  | eofReached   -- `ReadBytes` returned `io.EOF`
  | readError    -- `ReadBytes` returned a non-EOF error (logged, not surfaced)
  | decodeError  -- `json.Unmarshal` failed (logged, not surfaced)
deriving DecidableEq, Repr

/-- The driver loop: chunks sent on the `stream` channel in send order, the
cause of the goroutine's return, and the lines of the body it never read. -/
def driverLoop (dec : String → Option α) :
    List String → BodyEnd → List α × ExitCause × List String
  | [], .eof => ([], .eofReached, [])
  | [], .readErr => ([], .readError, [])
  | l :: rest, ending =>
    match classify dec l with
    | .terminator => ([], .terminator, rest)
    | .skip => driverLoop dec rest ending
    | .malformed => ([], .decodeError, rest)
    | .chunk c =>
      let r := driverLoop dec rest ending
      (c :: r.1, r.2.1, r.2.2)

/-- The observable outcome of one driver goroutine run (no `Close`, no context
cancellation). `bodyCloses` counts executions of `defer resp.Body.Close()` and
`streamClosed` records `defer close(stream)`; both deferred statements run
exactly once, when the goroutine returns — whichever branch returned. -/
structure DriverResult (α : Type) where
  chunks : List α
  exit : ExitCause
  unread : List String
  bodyCloses : Nat
  streamClosed : Bool
deriving Repr

/-- One full run of the driver goroutine over a body. -/
def driverRun (dec : String → Option α) (b : Body) : DriverResult α :=
  let r := driverLoop dec b.lines b.ending
  ⟨r.1, r.2.1, r.2.2, 1, true⟩

/-! ## The consumer side: `Recv`

```go
func (s *ChatCompletionStream) Recv() (ChatCompletionStreamResponse, error) {
    select {
    case chunk, ok := <-s.stream:
        if !ok { return ChatCompletionStreamResponse{}, io.EOF }
        return chunk, nil
    case <-s.done:
        return ChatCompletionStreamResponse{}, io.EOF
    }
}
```

(`CompletionStream.Recv` is identical up to the chunk type.) The `stream`
channel is unbuffered and FIFO, the driver is its only sender and `Recv` its
only receiver, so with `done` never closed the i-th `Recv` call returns the
i-th chunk the driver sent, and once the channel is closed every call returns
`io.EOF`. `RecvResult.err` stands for `Recv` returning a non-nil error other
than `io.EOF` — something the `select` above has no branch for. -/

/-- One return value of `Recv`. -/
inductive RecvResult (α : Type) where
  | chunk (c : α)   -- `(chunk, nil)`
  | eofEnd          -- `(zero value, io.EOF)`
  | err             -- `(zero value, e)` with `e ≠ nil, e ≠ io.EOF`: unreachable
deriving DecidableEq, Repr

/-- The i-th call to `Recv` (0-based) after the run `r`, counting every call
the consumer makes, including those after the channel has closed. -/
def recvAt (r : DriverResult α) (i : Nat) : RecvResult α :=
  match r.chunks.get? i with
  | some c => .chunk c
  | none => .eofEnd

/-- The first `n` calls to `Recv`, in order. -/
def recvTrace (r : DriverResult α) (n : Nat) : List (RecvResult α) :=
  (List.range n).map (recvAt r)

/-! ## The consumer side: `Close`

```go
func (s *ChatCompletionStream) Close() {
    close(s.done)
    if s.response != nil {
        s.response.Body.Close()
    }
}
```

(`CompletionStream.Close` is identical.) Per the Go specification, `close` of
an already-closed channel panics, so `Close` must track whether `done` is
closed. `bodyCloseCalls` counts every call of `response.Body.Close()`, from
the driver's deferred cleanup and from `Close` alike. -/

/-- The session state `Close` reads and writes. -/
structure SessionState where
  doneClosed : Bool
  bodyCloseCalls : Nat
  responseNonNil : Bool
deriving DecidableEq, Repr

/-- A `Close` call either returns normally or panics. -/
inductive CloseOutcome where
  | ok (s : SessionState)
  | panicked (msg : String)
deriving DecidableEq, Repr

/-- `ChatCompletionStream.Close` / `CompletionStream.Close`. -/
def streamClose (s : SessionState) : CloseOutcome :=
  if s.doneClosed then .panicked "close of closed channel"
  else .ok { s with
    doneClosed := true
    bodyCloseCalls := s.bodyCloseCalls + (if s.responseNonNil then 1 else 0) }

/-- The session as `CreateChatCompletionStream` / `CreateCompletionStream`
returns it: `done` open, `response` non-nil, no body close performed yet by
the consumer side. -/
def initialSession : SessionState := ⟨false, 0, true⟩

/-- The session state as seen by a `Close` call issued after the driver
goroutine has already finished a run `r`: the driver never closes `done`
(it closes `stream`), and its deferred `resp.Body.Close()` has run
`r.bodyCloses` times. -/
def sessionAfterRun (r : DriverResult α) : SessionState :=
  ⟨false, r.bodyCloses, true⟩

/-- Two consecutive `Close` calls starting from a given state. -/
def closeTwice (s : SessionState) : CloseOutcome :=
  match streamClose s with
  | .ok s1 => streamClose s1
  | .panicked m => .panicked m

/-! ## The non-streaming entry points (`Client.CreateChatCompletion`,
`Client.CreateCompletion`)

Only the control flow up to and including the HTTP round trip is modelled: the
request structs are reduced to the fields those functions consult (`Stream`
and `Model`; the remaining fields are payload passed through to the request
encoder), the outcome of `c.newRequest` and of `c.sendRequest` are oracle
parameters, and the result records how many HTTP requests were built and
sent. -/

/-- The sentinel errors of `chat.go` / `completion.go` and the oracle errors
of the request path. -/
inductive GoError where
  | chatStreamNotSupported        -- ErrChatCompletionStreamNotSupported
  | chatInvalidModel              -- ErrChatCompletionInvalidModel
  | completionStreamNotSupported  -- ErrCompletionStreamNotSupported
  | completionInvalidModel        -- ErrCompletionInvalidModel
  | transport (msg : String)      -- an error from newRequest / sendRequest
deriving DecidableEq, Repr

/-- `isSupportingModel` (`chat.go`): `return true`. -/
def isSupportingModel (suffix model : String) : Bool := true

/-- `ChatCompletionRequest`, reduced to the fields `CreateChatCompletion`
reads. -/
structure ChatCompletionRequest where
  Stream : Bool
  Model : String
deriving DecidableEq, Repr

/-- `CompletionRequest`, reduced to the fields `CreateCompletion` reads. -/
structure CompletionRequest where
  Stream : Bool
  Model : String
deriving DecidableEq, Repr

/-- `ChatCompletionResponse` (`chat.go`), with choices/citations/usage kept
abstract as their Go zero values are what the claims consult. -/
structure ChatCompletionResponse where
  ID : String
  Object : String
  Created : Int
  Model : String
  ChoicesCount : Nat          -- `len(Choices)`; a zero response has none
  SystemFingerprint : String
deriving DecidableEq, Repr

/-- The Go zero value of `ChatCompletionResponse`, the named return's initial
value. -/
def zeroChatResponse : ChatCompletionResponse := ⟨"", "", 0, "", 0, ""⟩

/-- `CompletionResponse` (`completion.go`), reduced the same way. -/
structure CompletionResponse where
  ID : String
  Object : String
  Created : Int
  Model : String
  ChoicesCount : Nat
  SystemFingerprint : String
deriving DecidableEq, Repr

/-- The Go zero value of `CompletionResponse`. -/
def zeroCompletionResponse : CompletionResponse := ⟨"", "", 0, "", 0, ""⟩

/-- The observable outcome of one call to a non-streaming entry point. -/
structure ClientCallResult (ρ : Type) where
  response : ρ
  error : Option GoError
  requestsBuilt : Nat   -- completed calls to c.newRequest
  requestsSent : Nat    -- calls to c.sendRequest
deriving Repr

/-- `Client.CreateChatCompletion` (`chat.go`):

```go
if request.Stream { err = ErrChatCompletionStreamNotSupported; return }
if !isSupportingModel(chatCompletionsSuffix, request.Model) { err = ...; return }
req, err := c.newRequest(...); if err != nil { return }
err = c.sendRequest(req, &response); return
```

`buildErr` is the outcome of `c.newRequest`, `send` that of `c.sendRequest`. -/
def CreateChatCompletion (request : ChatCompletionRequest)
    (buildErr : Option GoError) (send : Except GoError ChatCompletionResponse) :
    ClientCallResult ChatCompletionResponse :=
  if request.Stream then ⟨zeroChatResponse, some .chatStreamNotSupported, 0, 0⟩
  else if ¬ isSupportingModel "/chat/completions" request.Model then
    ⟨zeroChatResponse, some .chatInvalidModel, 0, 0⟩
  else
    match buildErr with
    | some e => ⟨zeroChatResponse, some e, 1, 0⟩
    | none =>
      match send with
      | .ok r => ⟨r, none, 1, 1⟩
      | .error e => ⟨zeroChatResponse, some e, 1, 1⟩

/-- `Client.CreateCompletion` (`completion.go`), same shape with the
completion sentinels. -/
def CreateCompletion (request : CompletionRequest)
    (buildErr : Option GoError) (send : Except GoError CompletionResponse) :
    ClientCallResult CompletionResponse :=
  if request.Stream then ⟨zeroCompletionResponse, some .completionStreamNotSupported, 0, 0⟩
  else if ¬ isSupportingModel "/completions" request.Model then
    ⟨zeroCompletionResponse, some .completionInvalidModel, 0, 0⟩
  else
    match buildErr with
    | some e => ⟨zeroCompletionResponse, some e, 1, 0⟩
    | none =>
      match send with
      | .ok r => ⟨r, none, 1, 1⟩
      | .error e => ⟨zeroCompletionResponse, some e, 1, 1⟩

/-! ## Lemmas: field lookup against marshalled member lists -/

theorem getField_nil (k : String) : getField [] k = none := rfl

theorem getField_cons (k k' : String) (v : Json) (rest : List (String × Json)) :
    getField ((k, v) :: rest) k' = if k = k' then some v else getField rest k' := by
  by_cases h : k = k' <;> simp [getField, List.find?, h]

theorem getField_omitemptyStr_ne (k k' s : String) (rest : List (String × Json))
    (h : k' ≠ k) : getField (omitemptyStr k s ++ rest) k' = getField rest k' := by
  by_cases hs : s = "" <;> simp [omitemptyStr, hs, getField_cons, Ne.symm h]

theorem getField_omitemptyPtr_ne (k k' : String) (o : Option Json)
    (rest : List (String × Json)) (h : k' ≠ k) :
    getField (omitemptyPtr k o ++ rest) k' = getField rest k' := by
  cases o <;> simp [omitemptyPtr, getField_cons, Ne.symm h]

theorem decStrField_omitemptyStr_self (k s : String) (rest : List (String × Json))
    (h : getField rest k = none) :
    decStrField (omitemptyStr k s ++ rest) k = some s := by
  by_cases hs : s = "" <;> simp [omitemptyStr, hs, decStrField, getField_cons, h]

theorem decPtrField_cons_self {β : Type} (dec : Json → Option β) (k : String)
    (j : Json) (rest : List (String × Json)) (hj : j ≠ Json.null) :
    decPtrField dec ((k, j) :: rest) k = (dec j).map some := by
  unfold decPtrField
  rw [getField_cons, if_pos rfl]
  cases j <;> simp_all

theorem decPtrField_omitemptyPtr_self {β γ : Type} (dec : Json → Option β)
    (enc : γ → Json) (g : γ → β) (k : String) (o : Option γ)
    (rest : List (String × Json)) (h : getField rest k = none)
    (henc : ∀ x, enc x ≠ Json.null) (hdec : ∀ x, dec (enc x) = some (g x)) :
    decPtrField dec (omitemptyPtr k (o.map enc) ++ rest) k = some (o.map g) := by
  cases o with
  | none => simp [omitemptyPtr, decPtrField, h]
  | some x =>
    show decPtrField dec ((k, enc x) :: rest) k = some (some (g x))
    rw [decPtrField_cons_self dec k (enc x) rest (henc x), hdec x]
    rfl

/-! ## Lemmas: the part encodings round-trip -/

theorem cacheControl_roundtrip (c : CacheControl) :
    CacheControl.fromJson c.toJson = some c := by
  rcases c with ⟨t, ttl⟩
  cases ttl <;>
    simp [CacheControl.toJson, CacheControl.fromJson, decStrField, decOptStrField,
      getField_cons, getField_nil]

theorem imageURL_roundtrip (u : ChatMessageImageURL) :
    ChatMessageImageURL.fromJson u.toJson = some u := by
  rcases u with ⟨url, detail⟩
  by_cases hu : url = "" <;> by_cases hd : detail = "" <;>
    simp [ChatMessageImageURL.toJson, ChatMessageImageURL.fromJson, omitemptyStr,
      hu, hd, decStrField, getField_cons, getField_nil]

theorem fileContent_roundtrip (f : FileContent) :
    FileContent.fromJson f.toJson = some f := by
  rcases f with ⟨n, d⟩
  simp [FileContent.toJson, FileContent.fromJson, decStrField, getField_cons,
    getField_nil]

theorem cacheControl_toJson_ne_null (c : CacheControl) : c.toJson ≠ Json.null := by
  simp [CacheControl.toJson]

theorem imageURL_toJson_ne_null (u : ChatMessageImageURL) :
    u.toJson ≠ Json.null := by
  simp [ChatMessageImageURL.toJson]

theorem fileContent_toJson_ne_null (f : FileContent) : f.toJson ≠ Json.null := by
  simp [FileContent.toJson]

theorem decStrField_nil (k : String) : decStrField [] k = some "" := rfl

theorem decStrField_cons_ne (k k' : String) (v : Json) (rest : List (String × Json))
    (h : ¬ k = k') : decStrField ((k, v) :: rest) k' = decStrField rest k' := by
  unfold decStrField
  rw [getField_cons, if_neg h]

theorem decStrField_cons_str (k s : String) (rest : List (String × Json)) :
    decStrField ((k, .str s) :: rest) k = some s := by
  unfold decStrField
  rw [getField_cons, if_pos rfl]

theorem decPtrField_nil {β : Type} (dec : Json → Option β) (k : String) :
    decPtrField dec [] k = some none := rfl

theorem decPtrField_cons_ne {β : Type} (dec : Json → Option β) (k k' : String)
    (v : Json) (rest : List (String × Json)) (h : ¬ k = k') :
    decPtrField dec ((k, v) :: rest) k' = decPtrField dec rest k' := by
  unfold decPtrField
  rw [getField_cons, if_neg h]

theorem chatMessagePart_roundtrip (p : ChatMessagePart) :
    ChatMessagePart.fromJson p.toJson = some p := by
  rcases p with ⟨ty, tx, cc, iu, fl⟩
  by_cases hty : ty = "" <;> by_cases htx : tx = "" <;>
    cases cc <;> cases iu <;> cases fl <;>
      simp [ChatMessagePart.toJson, ChatMessagePart.fromJson, omitemptyStr,
        omitemptyPtr, hty, htx, decStrField_nil, decStrField_cons_ne,
        decStrField_cons_str, decPtrField_nil, decPtrField_cons_ne,
        decPtrField_cons_self, cacheControl_toJson_ne_null,
        imageURL_toJson_ne_null, fileContent_toJson_ne_null,
        cacheControl_roundtrip, imageURL_roundtrip,
        fileContent_roundtrip]

theorem unmarshalPartList_map_toJson (ps : List ChatMessagePart) :
    unmarshalPartList (ps.map ChatMessagePart.toJson) = some ps := by
  induction ps with
  | nil => rfl
  | cons p ps ih =>
    simp [unmarshalPartList, chatMessagePart_roundtrip, ih]

/-! ## Claim C7 — the `Content` codec round-trips -/

/-- C7: for every well-formed `Content` value — text-only with non-empty text,
or parts-only with a non-empty part list — decoding the encoding
(`Content.UnmarshalJSON` after `Content.MarshalJSON`) reproduces the value's
semantic shape: text-only values come back as the same text with no parts,
parts-only values as the same parts with no text, and the empty value
round-trips, via JSON `null`, back to the empty value (with a nil Go error in
every case). -/
theorem content_encode_decode_roundtrip (c : Content) :
    (c.Text ≠ "" → c.Multi = [] →
      Content.unmarshalJSON (some c.marshalJSON) = (⟨c.Text, []⟩, none)) ∧
    (c.Multi ≠ [] → c.Text = "" →
      Content.unmarshalJSON (some c.marshalJSON) = (⟨"", c.Multi⟩, none)) ∧
    (Content.marshalJSON ⟨"", []⟩ = Json.null ∧
      Content.unmarshalJSON (some (Content.marshalJSON ⟨"", []⟩)) = (⟨"", []⟩, none)) := by
  refine ⟨?_, ?_, ⟨rfl, rfl⟩⟩
  · intro ht hm
    simp [Content.marshalJSON, ht, hm, Content.unmarshalJSON, stringUnmarshal]
  · intro hm ht
    have hlen : c.Multi.length > 0 := by
      cases hml : c.Multi with
      | nil => exact absurd hml hm
      | cons a l => simp [hml]
    simp [Content.marshalJSON, ht, hm, hlen, Content.unmarshalJSON,
      stringUnmarshal, Content.unmarshalFallback, partsUnmarshal,
      unmarshalPartList_map_toJson]

/-- Witness for C7: a concrete text-only value and a concrete parts-only value
each round-trip. -/
theorem content_encode_decode_roundtrip_witness :
    Content.unmarshalJSON (some (Content.marshalJSON ⟨"hi", []⟩)) = (⟨"hi", []⟩, none) ∧
    Content.unmarshalJSON
        (some (Content.marshalJSON ⟨"", [⟨"text", "hello", none, none, none⟩]⟩)) =
      (⟨"", [⟨"text", "hello", none, none, none⟩]⟩, none) :=
  ⟨(content_encode_decode_roundtrip ⟨"hi", []⟩).1 (by decide) rfl,
   (content_encode_decode_roundtrip ⟨"", [⟨"text", "hello", none, none, none⟩]⟩).2.1
     (by decide) rfl⟩

/-! ## Claim C8 — `Content.MarshalJSON` case analysis -/

/-- C8: `Content.MarshalJSON` emits a JSON string when `Text` is non-empty and
`Multi` is empty, a JSON array of encoded part objects when `Multi` is
non-empty and `Text` is empty, and JSON `null` when both or neither
representation is populated; the encoder is a total function (it never
returns an error). -/
theorem content_marshal_cases (c : Content) :
    (c.Text ≠ "" → c.Multi = [] → c.marshalJSON = Json.str c.Text) ∧
    (c.Multi ≠ [] → c.Text = "" →
      c.marshalJSON = Json.arr (c.Multi.map ChatMessagePart.toJson)) ∧
    (c.Text = "" ∧ c.Multi = [] ∨ c.Text ≠ "" ∧ c.Multi ≠ [] →
      c.marshalJSON = Json.null) := by
  refine ⟨?_, ?_, ?_⟩
  · intro ht hm
    simp [Content.marshalJSON, ht, hm]
  · intro hm ht
    have hlen : c.Multi.length > 0 := by
      cases hml : c.Multi with
      | nil => exact absurd hml hm
      | cons a l => simp [hml]
    simp [Content.marshalJSON, ht, hm, hlen]
  · rintro (⟨ht, hm⟩ | ⟨ht, hm⟩)
    · simp [Content.marshalJSON, ht, hm]
    · have : ¬ c.Multi.length = 0 := by simpa using hm
      simp [Content.marshalJSON, ht, hm, this]

/-- Witness for C8: the three branches at concrete inputs. -/
theorem content_marshal_cases_witness :
    Content.marshalJSON ⟨"hi", []⟩ = Json.str "hi" ∧
    Content.marshalJSON ⟨"", [⟨"", "", none, none, none⟩]⟩ =
      Json.arr [Json.obj []] ∧
    Content.marshalJSON ⟨"", []⟩ = Json.null ∧
    Content.marshalJSON ⟨"x", [⟨"", "", none, none, none⟩]⟩ = Json.null :=
  ⟨(content_marshal_cases ⟨"hi", []⟩).1 (by decide) rfl,
   (content_marshal_cases ⟨"", [⟨"", "", none, none, none⟩]⟩).2.1 (by decide) rfl,
   (content_marshal_cases ⟨"", []⟩).2.2 (Or.inl ⟨rfl, rfl⟩),
   (content_marshal_cases ⟨"x", [⟨"", "", none, none, none⟩]⟩).2.2
     (Or.inr ⟨by decide, by decide⟩)⟩

/-! ## Claim C9 — `Content.UnmarshalJSON` never fails; `""` and `[]` give the
empty value -/

/-- C9: `Content.UnmarshalJSON` returns a nil error on every input (including
bytes that are not valid JSON, modelled as `none`), and the inputs JSON `""`
and JSON `[]` — which the string and array decode attempts accept — both
produce the empty value, because the decoder only commits when the decoded
string or part list is non-empty. -/
theorem content_unmarshal_total_and_empty (data : Option Json) :
    (Content.unmarshalJSON data).2 = none ∧
    Content.unmarshalJSON (some (Json.str "")) = (⟨"", []⟩, none) ∧
    Content.unmarshalJSON (some (Json.arr [])) = (⟨"", []⟩, none) := by
  refine ⟨?_, by decide, by decide⟩
  unfold Content.unmarshalJSON Content.unmarshalFallback
  cases stringUnmarshal data with
  | none =>
    cases partsUnmarshal data with
    | none => simp
    | some parts => by_cases h : parts.length > 0 <;> simp [h]
  | some s =>
    by_cases hs : s = "" <;>
      cases partsUnmarshal data with
      | none => simp [hs]
      | some parts => by_cases h : parts.length > 0 <;> simp [hs, h]

/-! ## Lemmas: the driver loop -/

/-- The payload decode the driver applies to a non-terminator, non-skipped
line: `json.Unmarshal(bytes.TrimPrefix(line, []byte("data:")), &chunk)`. -/
def decodedChunk (dec : String → Option α) (l : String) : Option α :=
  dec (trimPrefix l dataPrefix)

theorem classify_chunk_decodedChunk (dec : String → Option α) (l : String)
    (c : α) (h : classify dec l = .chunk c) : decodedChunk dec l = some c := by
  unfold classify at h
  by_cases h1 : hasSuffix l doneSuffix
  · simp [h1] at h
  · by_cases h2 : (hasPrefix l commentPrefix || l = emptyLine : Bool)
    · simp [h1, h2] at h
    · simp only [h1, h2] at h
      cases hd : dec (trimPrefix l dataPrefix) <;> simp_all [decodedChunk]

/-- Processing a block of decodable data lines prepends their chunks, in line
order, to whatever the rest of the body produces. -/
theorem driverLoop_data_block (dec : String → Option α) (fs rest : List String)
    (ending : BodyEnd) (hf : ∀ l ∈ fs, ∃ c, classify dec l = .chunk c) :
    driverLoop dec (fs ++ rest) ending =
      (fs.filterMap (decodedChunk dec) ++ (driverLoop dec rest ending).1,
       (driverLoop dec rest ending).2.1, (driverLoop dec rest ending).2.2) := by
  induction fs with
  | nil => simp
  | cons l fs ih =>
    obtain ⟨c, hc⟩ := hf l (by simp)
    have hrest := ih (fun x hx => hf x (by simp [hx]))
    simp only [List.cons_append, driverLoop, hc, List.append_eq, hrest,
      List.filterMap_cons, classify_chunk_decodedChunk dec l c hc]

/-- With every line of the block decodable, the block contributes one chunk
per line. -/
theorem length_filterMap_decodable (dec : String → Option α) (fs : List String)
    (hf : ∀ l ∈ fs, ∃ c, classify dec l = .chunk c) :
    (fs.filterMap (decodedChunk dec)).length = fs.length := by
  induction fs with
  | nil => rfl
  | cons l fs ih =>
    obtain ⟨c, hc⟩ := hf l (by simp)
    simp [List.filterMap_cons, classify_chunk_decodedChunk dec l c hc,
      ih (fun x hx => hf x (by simp [hx]))]

theorem recvAt_lt (r : DriverResult α) (i : Nat) (h : i < r.chunks.length) :
    recvAt r i = .chunk (r.chunks.get ⟨i, h⟩) := by
  simp [recvAt, List.getElem?_eq_getElem h, List.get_eq_getElem]

theorem recvAt_ge (r : DriverResult α) (i : Nat) (h : r.chunks.length ≤ i) :
    recvAt r i = .eofEnd := by
  simp [recvAt, List.getElem?_eq_none h]

theorem recvAt_ne_err (r : DriverResult α) (i : Nat) : recvAt r i ≠ .err := by
  unfold recvAt
  cases r.chunks.get? i <;> simp

/-- A chunk decoder for concrete instantiations: accepts the payloads that
trimming `data:` off `data: k\n` (k = 1, 2, 3) produces. -/
def sampleDec : String → Option Nat := fun s =>
  if s = " 1\n" then some 1
  else if s = " 2\n" then some 2
  else if s = " 3\n" then some 3
  else none

/-! ## Claim C1 — N data frames then a terminator: N chunks in order, then
end-of-stream, one body release -/

/-- C1: for every stream whose body is N decodable data frames followed by a
terminator line, the driver delivers exactly N chunks to the channel, in frame
order (chunk i is the decode of frame i); every `Recv` call up to N returns
the corresponding chunk, every later call returns `io.EOF`; and the response
body is released exactly once (by the goroutine's deferred `Close`). -/
theorem stream_recv_in_order_then_eof {α : Type} (dec : String → Option α)
    (fs : List String) (t : String) (ending : BodyEnd)
    (hf : ∀ l ∈ fs, ∃ c, classify dec l = FrameClass.chunk c)
    (ht : hasSuffix t doneSuffix = true) :
    let r := driverRun dec ⟨fs ++ [t], ending⟩
    r.chunks = fs.filterMap (decodedChunk dec) ∧
    r.chunks.length = fs.length ∧
    (∀ i, ∀ h : i < r.chunks.length, recvAt r i = .chunk (r.chunks.get ⟨i, h⟩)) ∧
    (∀ i, fs.length ≤ i → recvAt r i = .eofEnd) ∧
    r.exit = .terminator ∧
    r.bodyCloses = 1 := by
  intro r
  have hterm : driverLoop dec [t] ending = ([], .terminator, []) := by
    simp [driverLoop, classify, ht]
  have hmain := driverLoop_data_block dec fs [t] ending hf
  rw [hterm] at hmain
  have hr : r = ⟨fs.filterMap (decodedChunk dec), .terminator, [], 1, true⟩ := by
    show driverRun dec ⟨fs ++ [t], ending⟩ = _
    unfold driverRun
    rw [hmain]
    simp
  have hlen := length_filterMap_decodable dec fs hf
  refine ⟨by rw [hr], by rw [hr]; exact hlen, fun i h => recvAt_lt r i h,
    fun i hi => recvAt_ge r i ?_, by rw [hr], by rw [hr]⟩
  rw [hr]
  exact hlen ▸ hi

/-- Witness for C1: two frames then `data: [DONE]`. -/
theorem stream_recv_in_order_then_eof_witness :
    (driverRun sampleDec ⟨["data: 1\n", "data: 2\n", "data: [DONE]\n"], .eof⟩).chunks = [1, 2] ∧
    recvAt (driverRun sampleDec ⟨["data: 1\n", "data: 2\n", "data: [DONE]\n"], .eof⟩) 2 = .eofEnd ∧
    (driverRun sampleDec ⟨["data: 1\n", "data: 2\n", "data: [DONE]\n"], .eof⟩).bodyCloses = 1 := by
  have h := stream_recv_in_order_then_eof sampleDec ["data: 1\n", "data: 2\n"]
    "data: [DONE]\n" .eof
    (by
      intro l hl
      simp only [List.mem_cons, List.not_mem_nil, or_false] at hl
      rcases hl with rfl | rfl
      · exact ⟨1, by decide⟩
      · exact ⟨2, by decide⟩)
    (by decide)
  exact ⟨h.1.trans (by decide), h.2.2.2.1 2 (by decide), h.2.2.2.2.2⟩

/-! ## Claim C6 — EOF without a terminator is a normal end of stream -/

/-- C6: for every stream whose body ends (io.EOF on the next read) after its
decodable data frames without a terminator line, the driver still delivers
every chunk and exits on end-of-source; after the last chunk every `Recv`
returns `io.EOF`, never an error value, and the body is released exactly
once. -/
theorem stream_eof_without_terminator {α : Type} (dec : String → Option α)
    (fs : List String)
    (hf : ∀ l ∈ fs, ∃ c, classify dec l = FrameClass.chunk c) :
    let r := driverRun dec ⟨fs, .eof⟩
    r.chunks = fs.filterMap (decodedChunk dec) ∧
    r.chunks.length = fs.length ∧
    r.exit = .eofReached ∧
    (∀ i, fs.length ≤ i → recvAt r i = .eofEnd) ∧
    (∀ i, recvAt r i ≠ .err) ∧
    r.bodyCloses = 1 := by
  intro r
  have hmain := driverLoop_data_block dec fs [] .eof hf
  rw [List.append_nil] at hmain
  have hr : r = ⟨fs.filterMap (decodedChunk dec), .eofReached, [], 1, true⟩ := by
    show driverRun dec ⟨fs, .eof⟩ = _
    unfold driverRun
    rw [hmain]
    simp [driverLoop]
  have hlen := length_filterMap_decodable dec fs hf
  refine ⟨by rw [hr], by rw [hr]; exact hlen, by rw [hr],
    fun i hi => recvAt_ge r i ?_, fun i => recvAt_ne_err r i, by rw [hr]⟩
  rw [hr]
  exact hlen ▸ hi

/-- Witness for C6: a two-frame body with no terminator. -/
theorem stream_eof_without_terminator_witness :
    (driverRun sampleDec ⟨["data: 1\n", "data: 2\n"], .eof⟩).chunks = [1, 2] ∧
    (driverRun sampleDec ⟨["data: 1\n", "data: 2\n"], .eof⟩).exit = .eofReached ∧
    recvAt (driverRun sampleDec ⟨["data: 1\n", "data: 2\n"], .eof⟩) 2 = .eofEnd := by
  have h := stream_eof_without_terminator sampleDec ["data: 1\n", "data: 2\n"]
    (by
      intro l hl
      simp only [List.mem_cons, List.not_mem_nil, or_false] at hl
      rcases hl with rfl | rfl
      · exact ⟨1, by decide⟩
      · exact ⟨2, by decide⟩)
  exact ⟨h.1.trans (by decide), h.2.2.1, h.2.2.2.1 2 (by decide)⟩

/-! ## Claim C3 — a malformed third line

The claim as frozen says the decode error is "reported once to the consumer
via the receive operation". In the source the driver only logs the decode
failure and returns; `Recv`'s `select` can return a chunk or `io.EOF`, never
a decode error, so the consumer sees two chunks and then plain end-of-stream.
The "no lines after the malformed one are read" part does hold. -/

/-- C3 counterexample: the body `data: 1`, `data: 2`, `data: oops` (malformed
JSON), `data: 3` delivers the first four `Recv` results
chunk 1, chunk 2, `io.EOF`, `io.EOF` — the decode error is never reported
through `Recv` (no `.err` in the trace), the goroutine exits on the decode
error, and the line after the malformed one is never read. -/
theorem decode_error_not_surfaced_counterexample :
    recvTrace (driverRun sampleDec
        ⟨["data: 1\n", "data: 2\n", "data: oops\n", "data: 3\n"], .eof⟩) 4 =
      [.chunk 1, .chunk 2, .eofEnd, .eofEnd] ∧
    (driverRun sampleDec
        ⟨["data: 1\n", "data: 2\n", "data: oops\n", "data: 3\n"], .eof⟩).exit =
      .decodeError ∧
    (driverRun sampleDec
        ⟨["data: 1\n", "data: 2\n", "data: oops\n", "data: 3\n"], .eof⟩).unread =
      ["data: 3\n"] := by
  decide

/-- C3 amended: with the first two lines decodable data frames and the third
malformed, exactly two chunks are delivered in order, the driver exits on the
decode error (which is logged, not surfaced: `Recv` returns `io.EOF` from the
third call on and never a non-EOF error), no line after the malformed one is
read, and the body is released exactly once. -/
theorem stream_decode_error_ends_stream {α : Type} (dec : String → Option α)
    (f1 f2 m : String) (rest : List String) (ending : BodyEnd)
    (h1 : ∃ c, classify dec f1 = FrameClass.chunk c)
    (h2 : ∃ c, classify dec f2 = FrameClass.chunk c)
    (hm : classify dec m = FrameClass.malformed) :
    let r := driverRun dec ⟨f1 :: f2 :: m :: rest, ending⟩
    r.chunks = [f1, f2].filterMap (decodedChunk dec) ∧
    r.chunks.length = 2 ∧
    r.exit = .decodeError ∧
    r.unread = rest ∧
    (∀ i, 2 ≤ i → recvAt r i = .eofEnd) ∧
    (∀ i, recvAt r i ≠ .err) ∧
    r.bodyCloses = 1 := by
  intro r
  have hf : ∀ l ∈ [f1, f2], ∃ c, classify dec l = FrameClass.chunk c := by
    intro l hl
    simp only [List.mem_cons, List.not_mem_nil, or_false] at hl
    rcases hl with rfl | rfl
    · exact h1
    · exact h2
  have hmal : driverLoop dec (m :: rest) ending = ([], .decodeError, rest) := by
    simp [driverLoop, hm]
  have hmain := driverLoop_data_block dec [f1, f2] (m :: rest) ending hf
  rw [hmal] at hmain
  have hlen := length_filterMap_decodable dec [f1, f2] hf
  have hr : r = ⟨[f1, f2].filterMap (decodedChunk dec), .decodeError, rest, 1, true⟩ := by
    show driverRun dec ⟨f1 :: f2 :: m :: rest, ending⟩ = _
    unfold driverRun
    rw [show f1 :: f2 :: m :: rest = [f1, f2] ++ m :: rest from rfl, hmain]
    simp
  refine ⟨by rw [hr], by rw [hr]; exact hlen, by rw [hr], by rw [hr],
    fun i hi => recvAt_ge r i ?_, fun i => recvAt_ne_err r i, by rw [hr]⟩
  rw [hr]
  exact hlen ▸ hi

/-- Witness for the amended C3, on the counterexample body. -/
theorem stream_decode_error_ends_stream_witness :
    (driverRun sampleDec
        ⟨["data: 1\n", "data: 2\n", "data: oops\n", "data: 3\n"], .eof⟩).chunks = [1, 2] ∧
    (driverRun sampleDec
        ⟨["data: 1\n", "data: 2\n", "data: oops\n", "data: 3\n"], .eof⟩).unread =
      ["data: 3\n"] ∧
    recvAt (driverRun sampleDec
        ⟨["data: 1\n", "data: 2\n", "data: oops\n", "data: 3\n"], .eof⟩) 2 = .eofEnd := by
  have h := stream_decode_error_ends_stream sampleDec "data: 1\n" "data: 2\n"
    "data: oops\n" ["data: 3\n"] .eof ⟨1, by decide⟩ ⟨2, by decide⟩ (by decide)
  exact ⟨h.1.trans (by decide), h.2.2.2.1, h.2.2.2.2.1 2 (by decide)⟩

/-! ## Claim C4 — which lines are skipped

The claim as frozen says any line beginning with `: ` is skipped. The source
only skips lines beginning with the literal `: OPENROUTER PROCESSING` (and
lines equal to `"\n"`); any other comment line falls through to the decode
step, whose failure terminates the stream. -/

/-- C4 counterexample: the comment line `: keepalive` between two data frames
is not skipped — it terminates the stream after one chunk, leaving the second
data frame and the terminator unread, whereas the same body without it
delivers both chunks. -/
theorem comment_line_not_skipped_counterexample :
    (driverRun sampleDec
        ⟨["data: 1\n", ": keepalive\n", "data: 2\n", "data: [DONE]\n"], .eof⟩).chunks =
      [1] ∧
    (driverRun sampleDec
        ⟨["data: 1\n", ": keepalive\n", "data: 2\n", "data: [DONE]\n"], .eof⟩).exit =
      .decodeError ∧
    (driverRun sampleDec
        ⟨["data: 1\n", ": keepalive\n", "data: 2\n", "data: [DONE]\n"], .eof⟩).unread =
      ["data: 2\n", "data: [DONE]\n"] ∧
    (driverRun sampleDec ⟨["data: 1\n", "data: 2\n", "data: [DONE]\n"], .eof⟩).chunks =
      [1, 2] := by
  decide

/-- C4 amended: a line beginning with `: OPENROUTER PROCESSING`, or equal to
the empty line `"\n"` — provided it does not also end in `[DONE]`, which the
earlier terminator check would catch — is classified as skip, is never
delivered as a chunk, and inserting such a line anywhere in the body changes
neither the chunks delivered (number or order) nor the exit cause. -/
theorem openrouter_comment_blank_skipped {α : Type} (dec : String → Option α)
    (xs ys : List String) (c : String) (ending : BodyEnd)
    (hc : hasPrefix c commentPrefix = true ∨ c = emptyLine)
    (ht : hasSuffix c doneSuffix = false) :
    classify dec c = FrameClass.skip ∧
    (driverLoop dec (xs ++ c :: ys) ending).1 = (driverLoop dec (xs ++ ys) ending).1 ∧
    (driverLoop dec (xs ++ c :: ys) ending).2.1 = (driverLoop dec (xs ++ ys) ending).2.1 := by
  have hskip : classify dec c = FrameClass.skip := by
    unfold classify
    rcases hc with h | h
    · simp [ht, h]
    · subst h
      rfl
  refine ⟨hskip, ?_⟩
  induction xs with
  | nil => simp [driverLoop, hskip]
  | cons x xs ih =>
    simp only [List.cons_append, driverLoop]
    cases hx : classify dec x <;> simp [ih]

/-- Witness for the amended C4: inserting `: OPENROUTER PROCESSING` between
two data frames leaves the delivered chunks unchanged. -/
theorem openrouter_comment_blank_skipped_witness :
    classify sampleDec ": OPENROUTER PROCESSING\n" = FrameClass.skip ∧
    (driverLoop sampleDec
        ["data: 1\n", ": OPENROUTER PROCESSING\n", "data: 2\n", "data: [DONE]\n"] .eof).1 =
      (driverLoop sampleDec ["data: 1\n", "data: 2\n", "data: [DONE]\n"] .eof).1 := by
  have h := openrouter_comment_blank_skipped sampleDec ["data: 1\n"]
    ["data: 2\n", "data: [DONE]\n"] ": OPENROUTER PROCESSING\n" .eof
    (Or.inl (by decide)) (by decide)
  exact ⟨h.1, h.2.1⟩

/-! ## Claim C5 — what counts as a terminator

The claim as frozen says a line is a terminator exactly when its payload
equals `[DONE]`. The source checks `strings.HasSuffix(line, "[DONE]\n")`
before anything else, so any line *ending* in `[DONE]` is a terminator, even
when its payload differs from `[DONE]`. -/

/-- C5 counterexample: the line `data: NOT[DONE]` — whose payload
`NOT[DONE]` is not the token `[DONE]` — is classified as a terminator, and
reading stops there, a following data frame staying unread. -/
theorem terminator_suffix_counterexample :
    classify sampleDec "data: NOT[DONE]\n" = FrameClass.terminator ∧
    "data: NOT[DONE]\n" = "data: " ++ "NOT[DONE]" ++ "\n" ∧
    "NOT[DONE]" ≠ "[DONE]" ∧
    (driverRun sampleDec ⟨["data: NOT[DONE]\n", "data: 1\n"], .eof⟩).chunks = [] ∧
    (driverRun sampleDec ⟨["data: NOT[DONE]\n", "data: 1\n"], .eof⟩).exit = .terminator ∧
    (driverRun sampleDec ⟨["data: NOT[DONE]\n", "data: 1\n"], .eof⟩).unread =
      ["data: 1\n"] := by
  decide

/-- C5 amended: a line is classified as the stream terminator exactly when it
ends with `[DONE]` followed by the newline — in particular the wire line
`data: [DONE]` is one — and on seeing such a line the driver stops
immediately: no chunk is delivered from it, the exit cause is the terminator,
and no later line of the body is read. -/
theorem terminator_iff_done_suffix {α : Type} (dec : String → Option α)
    (t : String) (rest : List String) (ending : BodyEnd) :
    (∀ l, classify dec l = FrameClass.terminator ↔ hasSuffix l doneSuffix = true) ∧
    (hasSuffix t doneSuffix = true →
      driverRun dec ⟨t :: rest, ending⟩ = ⟨[], .terminator, rest, 1, true⟩) := by
  constructor
  · intro l
    constructor
    · intro h
      by_contra hs
      have hs' : hasSuffix l doneSuffix = false := by
        cases hsx : hasSuffix l doneSuffix
        · rfl
        · exact absurd hsx hs
      unfold classify at h
      rw [hs'] at h
      simp only [Bool.false_eq_true, if_false] at h
      by_cases h2 : (hasPrefix l commentPrefix || l = emptyLine : Bool)
      · simp [h2] at h
      · simp only [h2, Bool.false_eq_true, if_false] at h
        cases hd : dec (trimPrefix l dataPrefix) <;> simp [hd] at h
    · intro h
      unfold classify
      rw [h]
      rfl
  · intro h
    unfold driverRun driverLoop
    simp [classify, h]

/-- Witness for the amended C5: `data: [DONE]` is a terminator and stops the
stream at once. -/
theorem terminator_iff_done_suffix_witness :
    classify sampleDec "data: [DONE]\n" = FrameClass.terminator ∧
    driverRun sampleDec ⟨["data: [DONE]\n", "data: 1\n"], .eof⟩ =
      ⟨[], .terminator, ["data: 1\n"], 1, true⟩ := by
  have h := terminator_iff_done_suffix sampleDec "data: [DONE]\n" ["data: 1\n"] .eof
  exact ⟨(h.1 "data: [DONE]\n").mpr (by decide), h.2 (by decide)⟩

/-! ## Claim C2 — `Close` is not idempotent-safe

`Close` runs `close(s.done)` unconditionally; by the Go specification,
closing an already-closed channel panics, so a second `Close` call panics.
And after a natural completion the driver's deferred `resp.Body.Close()` has
already run, so even a single `Close` call closes the body a second time.
The spec explicitly demands the opposite ("must not double-release the body
or double-close the channel — this requires the close path to be guarded"),
so the code, not the claim, is at fault. -/

/-- C2, evaluated at the failing inputs: calling `Close` twice on a freshly
created stream panics with `close of closed channel` on the second call; and
calling `Close` once after the driver has completed naturally (here: one
chunk, then a terminator) brings the total number of `response.Body.Close()`
calls to 2 — a double release. -/
theorem close_twice_panics_and_double_release :
    closeTwice initialSession = .panicked "close of closed channel" ∧
    streamClose (sessionAfterRun
        (driverRun sampleDec ⟨["data: 1\n", "data: [DONE]\n"], .eof⟩)) =
      .ok ⟨true, 2, true⟩ := by
  decide

/-! ## Claim C10 — `Stream: true` is rejected before any HTTP activity -/

/-- C10: for every request with `Stream = true`, `Client.CreateChatCompletion`
returns `ErrChatCompletionStreamNotSupported` and `Client.CreateCompletion`
returns `ErrCompletionStreamNotSupported`, each together with the zero-value
response, with no HTTP request built (`c.newRequest` never runs) and none
sent (`c.sendRequest` never runs) — whatever the transport would have
answered. -/
theorem stream_flag_rejected_before_http (creq : ChatCompletionRequest)
    (preq : CompletionRequest) (be1 be2 : Option GoError)
    (s1 : Except GoError ChatCompletionResponse)
    (s2 : Except GoError CompletionResponse)
    (h1 : creq.Stream = true) (h2 : preq.Stream = true) :
    CreateChatCompletion creq be1 s1 =
      ⟨zeroChatResponse, some .chatStreamNotSupported, 0, 0⟩ ∧
    CreateCompletion preq be2 s2 =
      ⟨zeroCompletionResponse, some .completionStreamNotSupported, 0, 0⟩ := by
  constructor
  · unfold CreateChatCompletion
    rw [h1]
    rfl
  · unfold CreateCompletion
    rw [h2]
    rfl

/-- Witness for C10: a concrete streaming request against a transport oracle
that would have succeeded. -/
theorem stream_flag_rejected_before_http_witness :
    CreateChatCompletion ⟨true, "openai/gpt-4o-mini"⟩ none
        (.ok ⟨"id", "chat.completion", 1, "openai/gpt-4o-mini", 1, "fp"⟩) =
      ⟨zeroChatResponse, some .chatStreamNotSupported, 0, 0⟩ ∧
    CreateCompletion ⟨true, "openai/gpt-4o-mini"⟩ none
        (.ok ⟨"id", "text_completion", 1, "openai/gpt-4o-mini", 1, "fp"⟩) =
      ⟨zeroCompletionResponse, some .completionStreamNotSupported, 0, 0⟩ :=
  stream_flag_rejected_before_http ⟨true, "openai/gpt-4o-mini"⟩
    ⟨true, "openai/gpt-4o-mini"⟩ none none
    (.ok ⟨"id", "chat.completion", 1, "openai/gpt-4o-mini", 1, "fp"⟩)
    (.ok ⟨"id", "text_completion", 1, "openai/gpt-4o-mini", 1, "fp"⟩) rfl rfl

end GoOpenRouter
